import Mathlib

/-!
Verification development for the astro-nexus data-acquisition layer
(`src/lib/api.ts`, plus the second, single-source data-layer implementation).

The TypeScript code is shallowly embedded: each network-facing function is
split into its pure normalization core (modelled here) and the network call
itself (out of scope).  JavaScript runtime details that the code relies on are
modelled explicitly:

  * a JSON cell is `null` or a string/number; `Number(cell)` is modelled as an
    `Option ℚ` (`none` = NaN / non-finite, `some q` = the finite value `q`);
    floating-point values are modelled as rationals;
  * array indexing out of bounds yields `undefined`, modelled as the outer
    `none` of `Option Cell`;
  * the `??` operator falls through on `undefined` and `null` only;
  * `Number(undefined) = NaN`, `Number(null) = 0`;
  * `Math.floor`, `Math.round` (half-up), `Math.max` act on rationals/integers;
  * `Promise.allSettled` yields one settled outcome per task, in declaration
    order; a rejection reason is an `Error` carrying a message, or not.
-/

/-- A JSON table cell as the weather code sees it: JSON `null`, or a
string/number whose JavaScript `Number(·)` conversion is `some q` when finite
and `none` when NaN or infinite. -/
inductive Cell where
  | null : Cell
  | val (n : Option ℚ) : Cell
deriving DecidableEq, Repr

/-- A table row: `row.get? i` is `undefined` (outer `none`) out of bounds. -/
abbrev Row := List Cell

/-- JavaScript `a ?? b` on possibly-undefined cells: falls through exactly when
`a` is `undefined` or `null`. -/
def jsCoalesce (a b : Option Cell) : Option Cell :=
  match a with
  | some (Cell.val n) => some (Cell.val n)
  | _ => b

/-- JavaScript `Number(·)` applied to a possibly-undefined cell:
`Number(undefined)` is NaN, `Number(null)` is `0`. -/
def jsNumberOf : Option Cell → Option ℚ
  | none => none
  | some Cell.null => some 0
  | some (Cell.val n) => n

/-- JavaScript `Math.round` on a rational (round half up): `⌊q + 1/2⌋`. -/
def jsRound (q : ℚ) : ℤ := ⌊q + 1/2⌋

/-- The normalized space-weather snapshot (`SpaceWeather` in `api.ts`).
History entries are rationals because only values passing the code's
`Number.isFinite` filter are retained. -/
structure SpaceWeather where
  kpIndex : ℚ
  kpHistory : List ℚ
  solarWindSpeed : ℚ
  solarWindHistory : List ℚ
deriving DecidableEq, Repr

/-- `lastKpRow[1] ?? lastKpRow[lastKpRow.length - 1] ?? 0` from
`fetchSpaceWeather`, before the `Number(·)` conversion. -/
def kpChain (r : Row) : Option Cell :=
  jsCoalesce (r.get? 1) (jsCoalesce (r.get? (r.length - 1)) (some (Cell.val (some 0))))

/-- The raw latest-Kp value `Number(lastKpRow[1] ?? lastKpRow[...] ?? 0)`
extracted from the last data row of the geomagnetic feed (`none` = NaN). -/
def kpRawOf (kpRows : List Row) : Option ℚ :=
  jsNumberOf (kpChain (((kpRows.drop 1).getLast?).getD []))

/-- `kpData.slice(-12).map(row => Number(row[1])).filter(v => isFinite v && v ≥ 0)`. -/
def kpHistoryOf (kpRows : List Row) : List ℚ :=
  let kpData := kpRows.drop 1
  (kpData.drop (kpData.length - 12)).filterMap
    (fun r => (jsNumberOf (r.get? 1)).bind (fun v => if 0 ≤ v then some v else none))

/-- The raw solar-wind speed `Number(lastPlasmaRow[2] ?? lastPlasmaRow[1])`
from the last data row of the plasma feed (`none` = NaN). -/
def windRawOf (windRows : List Row) : Option ℚ :=
  let r := ((windRows.drop 1).getLast?).getD []
  jsNumberOf (jsCoalesce (r.get? 2) (r.get? 1))

/-- `solarWindData.slice(-12).map(row => Number(row[2])).filter(v => isFinite v && v > 0)`. -/
def windHistoryOf (windRows : List Row) : List ℚ :=
  let windData := windRows.drop 1
  (windData.drop (windData.length - 12)).filterMap
    (fun r => (jsNumberOf (r.get? 2)).bind (fun v => if 0 < v then some v else none))

/-- Pure core of `fetchSpaceWeather` (`api.ts` lines 279-319): given the two
already-fetched row tables, build the normalized snapshot.  Row 0 of each
table is the header and is dropped; `Number.isFinite(x) ? x : 0` becomes
`Option.getD 0`. -/
def fetchSpaceWeatherPure (kpRows windRows : List Row) : SpaceWeather :=
  { kpIndex := (kpRawOf kpRows).getD 0
    kpHistory := kpHistoryOf kpRows
    solarWindSpeed := (windRawOf windRows).getD 0
    solarWindHistory := windHistoryOf windRows }

/-! ## Pass predictions and the race/fallback aggregator (`fetchNextISSPass`) -/

/-- The normalized pass prediction (`ISSPass` in `api.ts`): epoch seconds and
a duration in seconds. -/
structure ISSPass where
  risetime : ℤ
  duration : ℤ
deriving DecidableEq, Repr

/-- A JavaScript rejection reason: an `Error` instance carrying a message, or
any non-`Error` thrown value (the `instanceof Error` check in
`fetchNextISSPass` distinguishes exactly these two cases). -/
inductive JsReason where
  | errorMsg (msg : String) : JsReason
  | nonError : JsReason
deriving DecidableEq, Repr

/-- One entry of the array `Promise.allSettled` resolves with. -/
inductive JsSettled (α : Type) where
  | fulfilled (v : α) : JsSettled α
  | rejected (r : JsReason) : JsSettled α
deriving DecidableEq, Repr

/-- `settled.find(result => result.status === "fulfilled")`: the first
fulfilled value in array (declaration) order. -/
def firstFulfilled? {α : Type} : List (JsSettled α) → Option α
  | [] => none
  | JsSettled.fulfilled v :: _ => some v
  | JsSettled.rejected _ :: ts => firstFulfilled? ts

/-- `settled.find(result => result.status === "rejected")`: the first
rejection reason in array (declaration) order. -/
def firstRejected? {α : Type} : List (JsSettled α) → Option JsReason
  | [] => none
  | JsSettled.rejected r :: _ => some r
  | JsSettled.fulfilled _ :: ts => firstRejected? ts

/-- Resolution core of `fetchNextISSPass` (`api.ts` lines 132-147), applied to
the declaration-ordered settled outcomes of the five adapter tasks: return the
first fulfilled value, else throw the first rejection's reason when it is an
`Error`, else a fresh generic `Error`. -/
def aggregatePass (settled : List (JsSettled ISSPass)) : Except String ISSPass :=
  match firstFulfilled? settled with
  | some v => Except.ok v
  | none =>
    match firstRejected? settled with
    | some (JsReason.errorMsg m) => Except.error m
    | _ => Except.error "Could not fetch next pass for your location."

/-- A race run: the declaration-ordered adapter tasks, each with its settled
outcome and its completion time.  `Promise.allSettled` waits for every task
and yields the outcomes in declaration order, so the code's observable result
on a run is `aggregatePass` of the outcomes with the times erased. -/
def runResult (run : List (JsSettled ISSPass × ℚ)) : Except String ISSPass :=
  aggregatePass (run.map Prod.fst)

/-- Modelled from the spec (resolution rule of the race aggregator, for
comparison with `runResult`): the value of the first adapter to succeed in
completion order, i.e. the fulfilled value with the smallest completion time. -/
def specFirstCompletedSuccess (run : List (JsSettled ISSPass × ℚ)) : Option ISSPass :=
  let succs := run.filterMap (fun p =>
    match p.1 with
    | JsSettled.fulfilled v => some (v, p.2)
    | JsSettled.rejected _ => none)
  (succs.foldl (fun acc q =>
    match acc with
    | none => some q
    | some w => if q.2 < w.2 then some q else some w) none).map Prod.fst

/-- The `satellites.fly.dev` adapter branch of `fetchNextISSPass`
(`api.ts` lines 107-120): `Date.parse` results for `aos`/`los` are taken as
epoch-millisecond integers; `risetime` is `Math.floor(aos / 1000)` and
`duration` is `Math.max(0, Math.round((los - aos) / 1000))`. -/
def satAdapterPass (aosMs losMs : ℤ) : ISSPass :=
  { risetime := ⌊(aosMs : ℚ) / 1000⌋
    duration := max 0 (jsRound (((losMs - aosMs : ℤ) : ℚ) / 1000)) }

/-- The full `sat` task: fails with "No pass data returned" when the `passes`
field is absent or empty, else normalizes the first pass (`aos`, `tca`, `los`
parsed timestamps in epoch ms). -/
def satAdapter (passes : Option (List (ℤ × ℤ × ℤ))) : Except String ISSPass :=
  match passes with
  | some (p :: _) => Except.ok (satAdapterPass p.1 p.2.2)
  | _ => Except.error "No pass data returned"

/-! ## Local propagation fallback (`computeNextPassFromTle`) -/

/-- The scan loop of `computeNextPassFromTle` (`api.ts` lines 190-208) over an
explicit list of grid times.  `elev t` is the observer-frame elevation the
satellite.js propagation yields at time `t` (epoch ms), `none` when
`pv.position` is absent (the `continue` branch).  The state is `none` while
`inPass` is false and `some aos` once the rise step `aos` has been recorded;
the loop returns the `(aos, los)` pair at the `break`. -/
def scanLoop (elev : ℕ → Option ℚ) : List ℕ → Option ℕ → Option (ℕ × ℕ)
  | [], _ => none
  | t :: ts, st =>
    match elev t with
    | none => scanLoop elev ts st
    | some e =>
      match st with
      | none => if 0 < e then scanLoop elev ts (some t) else scanLoop elev ts none
      | some a => if e ≤ 0 then some (a, t) else scanLoop elev ts (some a)

/-- The scanned time grid: `for (let t = start; t <= start + 6*60*60*1000;
t += 10_000)` — 2161 grid points, 10 seconds apart, from `start` to
`start + 21 600 000` ms inclusive. -/
def passGrid (startMs : ℕ) : List ℕ :=
  (List.range 2161).map (fun k => startMs + 10000 * k)

/-- `{ risetime: Math.floor(aos/1000), duration: Math.max(0,
Math.round((los - aos)/1000)) }` (`api.ts` lines 210-213), on the
nonnegative epoch-ms grid times. -/
def passOfPair (p : ℕ × ℕ) : ISSPass :=
  { risetime := (p.1 / 1000 : ℕ)
    duration := max 0 (jsRound (((p.2 : ℚ) - (p.1 : ℚ)) / 1000)) }

/-- Pure core of `computeNextPassFromTle` after TLE parsing: run the 6-hour
10-second scan from `startMs` and convert the rise/set pair, or report no
pass (`null`). -/
def computeNextPassScan (elev : ℕ → Option ℚ) (startMs : ℕ) : Option ISSPass :=
  (scanLoop elev (passGrid startMs) none).map passOfPair

/-- True at a grid step where the propagated elevation is defined and above
the horizon. -/
def riseStep (elev : ℕ → Option ℚ) (t : ℕ) : Bool :=
  match elev t with
  | some e => decide (0 < e)
  | none => false

/-- True at a grid step where the propagated elevation is defined and at or
below the horizon. -/
def setStep (elev : ℕ → Option ℚ) (t : ℕ) : Bool :=
  match elev t with
  | some e => decide (e ≤ 0)
  | none => false

/-- Modelled from the spec (edge-detection rule of the local fallback, for
comparison with `scanLoop`): the pass begins at the first grid step whose
elevation is defined and above the horizon — every earlier step being at or
below it, or undefined — and ends at the first subsequent step whose
elevation is defined and at or below the horizon; with no such pair the scan
reports nothing. -/
def specScan (elev : ℕ → Option ℚ) (grid : List ℕ) : Option (ℕ × ℕ) :=
  match grid.dropWhile (fun t => !riseStep elev t) with
  | [] => none
  | a :: rest => (rest.find? (setStep elev)).map (fun l => (a, l))

/-! ## Launch adapter (`fetchUpcomingLaunches`) -/

/-- Raw nested optional fields of a Launch Library 2 record, as typed by
`LaunchLibraryResponse` in `api.ts`. -/
structure RawStatus where
  name : Option String
deriving DecidableEq, Repr

structure RawRocketConfig where
  name : Option String
deriving DecidableEq, Repr

structure RawRocket where
  configuration : Option RawRocketConfig
deriving DecidableEq, Repr

structure RawProvider where
  name : Option String
deriving DecidableEq, Repr

structure RawMission where
  name : Option String
  description : Option String
deriving DecidableEq, Repr

structure RawLocation where
  name : Option String
deriving DecidableEq, Repr

structure RawPad where
  name : Option String
  location : Option RawLocation
deriving DecidableEq, Repr

/-- One element of `data.results` in the launch feed. -/
structure RawLaunch where
  id : String
  name : String
  net : String
  status : Option RawStatus
  rocket : Option RawRocket
  launch_service_provider : Option RawProvider
  mission : Option RawMission
  pad : Option RawPad
  infoURLs : Option (List String)
  vidURLs : Option (List String)
deriving DecidableEq, Repr

/-- The normalized `Launch` record of `api.ts`.  `launchDate` keeps the raw
`net` string (`new Date(net)` is a presentation-layer conversion carrying the
same information). -/
structure Launch where
  id : String
  name : String
  provider : String
  rocket : String
  launchSite : String
  launchDate : String
  status : String
  payload : String
  missionName : Option String
  infoUrl : Option String
deriving DecidableEq, Repr

/-- The per-record mapping of `fetchUpcomingLaunches` (`api.ts` lines
253-267): optional chaining plus `??` fallback literals, `status` lower-cased,
and `infoURLs?.[0] ?? vidURLs?.[0]` preferring the first URL list. -/
def normalizeLaunch (r : RawLaunch) : Launch :=
  { id := r.id
    name := r.name
    provider := ((r.launch_service_provider).bind RawProvider.name).getD "Unknown provider"
    rocket := ((r.rocket).bind RawRocket.configuration |>.bind RawRocketConfig.name).getD
      "Unknown vehicle"
    launchSite := (((r.pad).bind RawPad.name).or
      ((r.pad).bind RawPad.location |>.bind RawLocation.name)).getD "Launch site TBA"
    launchDate := r.net
    status := (((r.status).bind RawStatus.name).map String.toLower).getD "tbd"
    payload := ((r.mission).bind RawMission.description).getD "Payload details not provided"
    missionName := (r.mission).bind RawMission.name
    infoUrl := ((r.infoURLs).bind List.head?).or ((r.vidURLs).bind List.head?) }

/-- Pure core of `fetchUpcomingLaunches`: normalize every record of the
response in order. -/
def fetchUpcomingLaunchesPure (results : List RawLaunch) : List Launch :=
  results.map normalizeLaunch

/-! ## Position adapter, and the second data-layer implementation

The repository contains a second, single-source data-acquisition file (the
unnamed module with its own `fetchISSPosition`, `fetchNextISSPass`,
`fetchUpcomingLaunches`, `fetchSpaceWeather`).  Its position, launch and
weather functions are embedded below as the `Alt` definitions, transcribed
from that file. -/

/-- The raw and normalized shape of the position record (`ISSPositionResponse`
in both files): the adapter maps the four telemetry fields 1:1 and replaces
the timestamp with the local receipt time `Date.now()`. -/
structure ISSPositionResponse where
  latitude : ℚ
  longitude : ℚ
  altitude : ℚ
  velocity : ℚ
  timestamp : ℤ
deriving DecidableEq, Repr

/-- Pure core of `fetchISSPosition` in `api.ts` (lines 38-52): fields copied,
timestamp assigned from `Date.now()` at receipt. -/
def fetchISSPositionPure (data : ISSPositionResponse) (nowMs : ℤ) : ISSPositionResponse :=
  { latitude := data.latitude
    longitude := data.longitude
    altitude := data.altitude
    velocity := data.velocity
    timestamp := nowMs }

/-- Pure core of `fetchISSPosition` in the second implementation. -/
def fetchISSPositionPureAlt (data : ISSPositionResponse) (nowMs : ℤ) : ISSPositionResponse :=
  { latitude := data.latitude
    longitude := data.longitude
    altitude := data.altitude
    velocity := data.velocity
    timestamp := nowMs }

/-- The per-record launch mapping of the second implementation (its
`fetchUpcomingLaunches`, lines 108-122 of that file). -/
def normalizeLaunchAlt (r : RawLaunch) : Launch :=
  { id := r.id
    name := r.name
    provider := ((r.launch_service_provider).bind RawProvider.name).getD "Unknown provider"
    rocket := ((r.rocket).bind RawRocket.configuration |>.bind RawRocketConfig.name).getD
      "Unknown vehicle"
    launchSite := (((r.pad).bind RawPad.name).or
      ((r.pad).bind RawPad.location |>.bind RawLocation.name)).getD "Launch site TBA"
    launchDate := r.net
    status := (((r.status).bind RawStatus.name).map String.toLower).getD "tbd"
    payload := ((r.mission).bind RawMission.description).getD "Payload details not provided"
    missionName := (r.mission).bind RawMission.name
    infoUrl := ((r.infoURLs).bind List.head?).or ((r.vidURLs).bind List.head?) }

/-- Pure core of `fetchUpcomingLaunches` in the second implementation. -/
def fetchUpcomingLaunchesPureAlt (results : List RawLaunch) : List Launch :=
  results.map normalizeLaunchAlt

/-- Pure core of `fetchSpaceWeather` in the second implementation (its lines
134-174, textually the same extraction pipeline). -/
def fetchSpaceWeatherPureAlt (kpRows windRows : List Row) : SpaceWeather :=
  { kpIndex := (jsNumberOf (jsCoalesce ((((kpRows.drop 1).getLast?).getD []).get? 1)
      (jsCoalesce ((((kpRows.drop 1).getLast?).getD []).get?
        ((((kpRows.drop 1).getLast?).getD []).length - 1))
        (some (Cell.val (some 0)))))).getD 0
    kpHistory := ((kpRows.drop 1).drop ((kpRows.drop 1).length - 12)).filterMap
      (fun r => (jsNumberOf (r.get? 1)).bind (fun v => if 0 ≤ v then some v else none))
    solarWindSpeed := (jsNumberOf (jsCoalesce ((((windRows.drop 1).getLast?).getD []).get? 2)
      ((((windRows.drop 1).getLast?).getD []).get? 1))).getD 0
    solarWindHistory := ((windRows.drop 1).drop ((windRows.drop 1).length - 12)).filterMap
      (fun r => (jsNumberOf (r.get? 2)).bind (fun v => if 0 < v then some v else none)) }

/-! ## Spec-side comparison definitions and concrete example inputs -/

/-- Modelled from the spec (latest-index extraction rule, for comparison with
the code's `kpRawOf`): take the expected column (index 1) of the last data
row; fall back to the row's last column when the expected column is absent or
non-numeric; default to 0 when neither is a finite number. -/
def specLatestIndex (rows : List Row) : ℚ :=
  let r := ((rows.drop 1).getLast?).getD []
  match jsNumberOf (r.get? 1) with
  | some v => v
  | none =>
    match jsNumberOf (r.get? (r.length - 1)) with
    | some v => v
    | none => 0

/-- The extraction rule the code actually implements (for the amended claim):
the `??` chain falls back to the last column only when the expected column is
absent (`undefined`) or `null`; a present non-numeric cell short-circuits the
chain and the non-finite guard then yields 0. -/
def amendedLatestIndex (rows : List Row) : ℚ :=
  let r := ((rows.drop 1).getLast?).getD []
  match r.get? 1 with
  | some (Cell.val n) => n.getD 0
  | _ =>
    match r.get? (r.length - 1) with
    | some (Cell.val n) => n.getD 0
    | _ => 0

/-- A concrete elevation profile for witnesses: above the horizon at the first
grid step, below it afterwards. -/
def exElev : ℕ → Option ℚ := fun t => if t = 0 then some 1 else some (-1)

/-- A concrete geomagnetic feed: one header row, one data row whose expected
column holds the finite value 3. -/
def exKpRows : List Row :=
  [[Cell.val none, Cell.val none], [Cell.val none, Cell.val (some 3)]]

/-- A concrete plasma feed: one header row, one data row whose speed column
(index 2) holds the finite value 400. -/
def exWindRows : List Row :=
  [[Cell.val none, Cell.val none, Cell.val none],
   [Cell.val none, Cell.val (some 1), Cell.val (some 400)]]

/-! ## Theorems -/

/-- C1, counterexample: with three adapters whose declaration order is the
reverse of their completion order and all of them succeeding, the code returns
the first-declared success (completion time 3), not the earliest-completing
one (completion time 1), so the claimed first-completed-wins resolution rule
is false of `fetchNextISSPass`. -/
theorem C1_counterexample :
    runResult [(JsSettled.fulfilled ⟨1, 1⟩, 3), (JsSettled.fulfilled ⟨2, 2⟩, 2),
      (JsSettled.fulfilled ⟨3, 3⟩, 1)] = Except.ok ⟨1, 1⟩ ∧
    specFirstCompletedSuccess [(JsSettled.fulfilled ⟨1, 1⟩, 3),
      (JsSettled.fulfilled ⟨2, 2⟩, 2), (JsSettled.fulfilled ⟨3, 3⟩, 1)] = some ⟨3, 3⟩ ∧
    ISSPass.mk 1 1 ≠ ISSPass.mk 3 3 :=
  ⟨rfl, rfl, by decide⟩

/-- C1 (amended): `fetchNextISSPass` waits for every adapter to settle
(`Promise.allSettled`) and, when at least one adapter succeeds, returns the
value of the first adapter to succeed in declaration order, regardless of
completion times. -/
theorem C1_first_declared_success_wins (run : List (JsSettled ISSPass × ℚ)) (v : ISSPass)
    (h : firstFulfilled? (run.map Prod.fst) = some v) :
    runResult run = Except.ok v := by
  unfold runResult aggregatePass
  rw [h]

/-- Witness for C1: a run whose first-declared adapter fails and whose second
succeeds resolves to the second adapter's value. -/
theorem C1_witness :
    runResult [(JsSettled.rejected JsReason.nonError, 1),
      (JsSettled.fulfilled ⟨5, 60⟩, 2)] = Except.ok ⟨5, 60⟩ :=
  C1_first_declared_success_wins
    [(JsSettled.rejected JsReason.nonError, 1), (JsSettled.fulfilled ⟨5, 60⟩, 2)] ⟨5, 60⟩ rfl

/-- C2, counterexample: with every adapter failing, a first rejection that is
not an `Error`, and a second rejection carrying a descriptive message, the
code surfaces its generic message — which is neither the descriptive message
nor the claim's generic literal "could not fetch prediction for this
location". -/
theorem C2_counterexample :
    aggregatePass [JsSettled.rejected JsReason.nonError,
      JsSettled.rejected (JsReason.errorMsg "getaddrinfo ENOTFOUND api.open-notify.org")] =
      Except.error "Could not fetch next pass for your location." ∧
    "Could not fetch next pass for your location." ≠
      "getaddrinfo ENOTFOUND api.open-notify.org" ∧
    "Could not fetch next pass for your location." ≠
      "could not fetch prediction for this location" :=
  ⟨rfl, by decide, by decide⟩

/-- C2 (amended): when every adapter fails, `fetchNextISSPass` surfaces the
first declaration-order rejection's reason when that reason is an `Error` —
whatever its message — and otherwise the generic message "Could not fetch
next pass for your location.". -/
theorem C2_first_error_surfaced (settled : List (JsSettled ISSPass))
    (h : firstFulfilled? settled = none) :
    aggregatePass settled = Except.error
      (match firstRejected? settled with
       | some (JsReason.errorMsg m) => m
       | _ => "Could not fetch next pass for your location.") := by
  unfold aggregatePass
  rw [h]
  cases hr : firstRejected? settled with
  | none => rfl
  | some r => cases r <;> rfl

/-- Witness for C2: a single failing adapter whose timeout `Error` message is
surfaced unchanged. -/
theorem C2_witness :
    aggregatePass [JsSettled.rejected (JsReason.errorMsg "Request timed out")] =
      Except.error "Request timed out" :=
  C2_first_error_surfaced [JsSettled.rejected (JsReason.errorMsg "Request timed out")] rfl

/-- C8, counterexample: two feeds that respond successfully but hold only a
header row produce exactly the defaulted snapshot (kpIndex 0, empty
histories, wind speed 0); `fetchSpaceWeather` is total on its parsed inputs
and never surfaces a NoDataAvailable failure. -/
theorem C8_counterexample :
    fetchSpaceWeatherPure [[Cell.val none]] [[Cell.val none]] =
      { kpIndex := 0, kpHistory := [], solarWindSpeed := 0, solarWindHistory := [] } :=
  rfl

/-- C8 (amended): whenever both feeds contain no data rows (empty arrays or a
lone header row), `fetchSpaceWeather` silently returns the defaulted snapshot
rather than failing. -/
theorem C8_defaulted_snapshot_on_empty_feeds (kpRows windRows : List Row)
    (hk : kpRows.drop 1 = []) (hw : windRows.drop 1 = []) :
    fetchSpaceWeatherPure kpRows windRows =
      { kpIndex := 0, kpHistory := [], solarWindSpeed := 0, solarWindHistory := [] } := by
  simp [fetchSpaceWeatherPure, kpRawOf, kpHistoryOf, windRawOf, windHistoryOf,
    kpChain, jsCoalesce, jsNumberOf, hk, hw]

/-- Witness for C8: an entirely empty geomagnetic feed and a header-only
plasma feed yield the defaulted snapshot. -/
theorem C8_witness :
    fetchSpaceWeatherPure [] [[Cell.null]] =
      { kpIndex := 0, kpHistory := [], solarWindSpeed := 0, solarWindHistory := [] } :=
  C8_defaulted_snapshot_on_empty_feeds [] [[Cell.null]] rfl rfl

/-- Helper: the last-12 suffix followed by a filterMap never exceeds 12
entries. -/
theorem length_filterMap_lastTwelve {α β : Type} (l : List α) (f : α → Option β) :
    ((l.drop (l.length - 12)).filterMap f).length ≤ 12 := by
  calc ((l.drop (l.length - 12)).filterMap f).length
      ≤ (l.drop (l.length - 12)).length := List.length_filterMap_le _ _
    _ = l.length - (l.length - 12) := List.length_drop _ _
    _ ≤ 12 := by omega

/-- Helper: the last-12 suffix followed by a filterMap is a sublist of the
filterMap of the whole table, hence preserves the source order. -/
theorem sublist_filterMap_lastTwelve {α β : Type} (l : List α) (n : ℕ) (f : α → Option β) :
    List.Sublist ((l.drop n).filterMap f) (l.filterMap f) :=
  (List.drop_sublist n l).filterMap f

/-- Helper: a guarded-keep filter only lets values satisfying the guard
through. -/
theorem of_if_some {p : ℚ → Prop} [DecidablePred p] {w v : ℚ}
    (h : (if p w then some w else none) = some v) : p v := by
  by_cases hp : p w
  · rw [if_pos hp] at h
    cases h
    exact hp
  · rw [if_neg hp] at h
    exact Option.noConfusion h

/-- C3, counterexample: a geomagnetic feed whose last data row carries the
finite value 10 yields a snapshot with kpIndex 10 — the code applies no
clamping, so "kpIndex lies in [0,9]" is false of `fetchSpaceWeather`. -/
theorem C3_counterexample :
    ¬ (fetchSpaceWeatherPure [[Cell.val none], [Cell.val none, Cell.val (some 10)]]
        [[Cell.val none]]).kpIndex ≤ 9 := by
  decide

/-- C3 (amended): every snapshot produced by `fetchSpaceWeather` has histories
of at most 12 entries, each history a sublist of the source-ordered parsed
series (so chronological order is preserved and only values passing the
finiteness filter appear), with kpHistory entries all nonnegative and
solarWindHistory entries all positive; kpIndex lies in [0,9] whenever the
extracted raw value is finite and in [0,9] — the code applies no clamping. -/
theorem C3_snapshot_invariants (kpRows windRows : List Row) :
    (fetchSpaceWeatherPure kpRows windRows).kpHistory.length ≤ 12 ∧
    (fetchSpaceWeatherPure kpRows windRows).solarWindHistory.length ≤ 12 ∧
    (∀ v ∈ (fetchSpaceWeatherPure kpRows windRows).kpHistory, 0 ≤ v) ∧
    (∀ v ∈ (fetchSpaceWeatherPure kpRows windRows).solarWindHistory, 0 < v) ∧
    List.Sublist (fetchSpaceWeatherPure kpRows windRows).kpHistory
      ((kpRows.drop 1).filterMap (fun r =>
        (jsNumberOf (r.get? 1)).bind (fun v => if 0 ≤ v then some v else none))) ∧
    List.Sublist (fetchSpaceWeatherPure kpRows windRows).solarWindHistory
      ((windRows.drop 1).filterMap (fun r =>
        (jsNumberOf (r.get? 2)).bind (fun v => if 0 < v then some v else none))) ∧
    (∀ v, kpRawOf kpRows = some v → 0 ≤ v → v ≤ 9 →
      0 ≤ (fetchSpaceWeatherPure kpRows windRows).kpIndex ∧
      (fetchSpaceWeatherPure kpRows windRows).kpIndex ≤ 9) := by
  refine ⟨length_filterMap_lastTwelve _ _, length_filterMap_lastTwelve _ _, ?_, ?_, ?_, ?_, ?_⟩
  · intro v hv
    rw [show (fetchSpaceWeatherPure kpRows windRows).kpHistory = kpHistoryOf kpRows from rfl,
      kpHistoryOf, List.mem_filterMap] at hv
    obtain ⟨r, -, hr⟩ := hv
    cases h : jsNumberOf (r.get? 1) with
    | none => rw [h] at hr; exact Option.noConfusion hr
    | some w => rw [h] at hr; exact of_if_some (p := fun v => 0 ≤ v) hr
  · intro v hv
    rw [show (fetchSpaceWeatherPure kpRows windRows).solarWindHistory = windHistoryOf windRows
      from rfl, windHistoryOf, List.mem_filterMap] at hv
    obtain ⟨r, -, hr⟩ := hv
    cases h : jsNumberOf (r.get? 2) with
    | none => rw [h] at hr; exact Option.noConfusion hr
    | some w => rw [h] at hr; exact of_if_some (p := fun v => 0 < v) hr
  · exact sublist_filterMap_lastTwelve _ _ _
  · exact sublist_filterMap_lastTwelve _ _ _
  · intro v hv h0 h9
    rw [show (fetchSpaceWeatherPure kpRows windRows).kpIndex = (kpRawOf kpRows).getD 0 from rfl,
      hv]
    exact ⟨h0, h9⟩

/-- Witness for C3: on concrete feeds the history guards and the conditional
kpIndex range hold at the concrete entries. -/
theorem C3_witness :
    (0 : ℚ) ≤ 3 ∧ (0 : ℚ) < 400 ∧
    (0 ≤ (fetchSpaceWeatherPure exKpRows exWindRows).kpIndex ∧
      (fetchSpaceWeatherPure exKpRows exWindRows).kpIndex ≤ 9) := by
  obtain ⟨-, -, hk, hw, -, -, hidx⟩ := C3_snapshot_invariants exKpRows exWindRows
  exact ⟨hk 3 (by decide), hw 400 (by decide), hidx 3 rfl (by decide) (by decide)⟩

/-- Helper: the tail of the `??` chain — last column, then the literal 0 —
matches on the last column's presence and kind. -/
theorem latest_fallback_eq (r : Row) :
    (jsNumberOf (jsCoalesce (r.get? (r.length - 1)) (some (Cell.val (some 0))))).getD 0 =
    (match r.get? (r.length - 1) with
     | some (Cell.val n) => n.getD 0
     | _ => 0) := by
  cases h2 : r.get? (r.length - 1) with
  | none => simp [jsCoalesce, jsNumberOf]
  | some c2 => cases c2 <;> simp [jsCoalesce, jsNumberOf]

/-- C4, counterexample: a last data row whose expected column is present but
non-numeric (its `Number(·)` conversion is NaN) yields 0 from the code, while
the claimed rule would fall back to the row's last column and yield 5. -/
theorem C4_counterexample :
    (fetchSpaceWeatherPure [[Cell.val none, Cell.val none, Cell.val none],
        [Cell.val none, Cell.val none, Cell.val (some 5)]] [[Cell.val none]]).kpIndex = 0 ∧
    specLatestIndex [[Cell.val none, Cell.val none, Cell.val none],
        [Cell.val none, Cell.val none, Cell.val (some 5)]] = 5 ∧
    (0 : ℚ) ≠ 5 :=
  ⟨rfl, rfl, by decide⟩

/-- C4 (amended): the adapter drops exactly the header row and reads the true
last data row; it falls back to that row's last column only when the expected
column is absent or `null` — a present non-numeric cell short-circuits the
chain and the non-finite guard then defaults the value to 0, as does a
non-finite fallback. -/
theorem C4_latest_index_extraction (kpRows windRows : List Row) :
    (fetchSpaceWeatherPure kpRows windRows).kpIndex = amendedLatestIndex kpRows := by
  rw [show (fetchSpaceWeatherPure kpRows windRows).kpIndex = (kpRawOf kpRows).getD 0 from rfl,
    kpRawOf, amendedLatestIndex, kpChain]
  cases h1 : (((kpRows.drop 1).getLast?).getD []).get? 1 with
  | none => simpa [jsCoalesce, h1] using latest_fallback_eq (((kpRows.drop 1).getLast?).getD [])
  | some c1 =>
    cases c1 with
    | null => simpa [jsCoalesce, h1] using latest_fallback_eq (((kpRows.drop 1).getLast?).getD [])
    | val n => simp [jsCoalesce, jsNumberOf, h1]

/-- C5: a raw launch record with every optional field missing normalizes to
exactly the documented fallback literals, and when both informational URL
lists are present and non-empty the normalized infoUrl is the head of the
first list, not the second. -/
theorem C5_launch_fallback_literals :
    (∀ id name net, normalizeLaunch ⟨id, name, net, none, none, none, none, none, none, none⟩ =
      ⟨id, name, "Unknown provider", "Unknown vehicle", "Launch site TBA", net, "tbd",
        "Payload details not provided", none, none⟩) ∧
    (∀ (r : RawLaunch) (u v : String) (us vs : List String),
      r.infoURLs = some (u :: us) → r.vidURLs = some (v :: vs) →
      (normalizeLaunch r).infoUrl = some u) := by
  constructor
  · intro id name net
    rfl
  · intro r u v us vs hi hv
    simp [normalizeLaunch, hi, Option.or]

/-- Witness for C5: a concrete minimal record yields the five literals, and a
concrete record with both URL lists populated keeps the first list's head. -/
theorem C5_witness :
    normalizeLaunch ⟨"id-1", "Demo Mission", "2026-01-01T00:00:00Z",
        none, none, none, none, none, none, none⟩ =
      ⟨"id-1", "Demo Mission", "Unknown provider", "Unknown vehicle", "Launch site TBA",
        "2026-01-01T00:00:00Z", "tbd", "Payload details not provided", none, none⟩ ∧
    (normalizeLaunch ⟨"id-2", "Demo 2", "2026-02-01T00:00:00Z", none, none, none, none, none,
        some ["https://info.example"], some ["https://video.example"]⟩).infoUrl =
      some "https://info.example" :=
  ⟨C5_launch_fallback_literals.1 "id-1" "Demo Mission" "2026-01-01T00:00:00Z",
   C5_launch_fallback_literals.2
     ⟨"id-2", "Demo 2", "2026-02-01T00:00:00Z", none, none, none, none, none,
       some ["https://info.example"], some ["https://video.example"]⟩
     "https://info.example" "https://video.example" [] [] rfl rfl⟩

/-- C10: for the capabilities both data-layer implementations share —
position, launches, space weather — the multi-source implementation and the
single-source implementation compute extensionally equal results on every
input. -/
theorem C10_implementations_agree :
    (∀ (d : ISSPositionResponse) (nowMs : ℤ),
      fetchISSPositionPure d nowMs = fetchISSPositionPureAlt d nowMs) ∧
    (∀ results : List RawLaunch,
      fetchUpcomingLaunchesPure results = fetchUpcomingLaunchesPureAlt results) ∧
    (∀ kpRows windRows : List Row,
      fetchSpaceWeatherPure kpRows windRows = fetchSpaceWeatherPureAlt kpRows windRows) :=
  ⟨fun _ _ => rfl, fun _ => rfl, fun _ _ => rfl⟩

/-- Helper: once a rise step `a` has been recorded (`inPass` true), the scan
loop returns `a` paired with the first subsequent step whose elevation is
defined and at or below the horizon. -/
theorem scanLoop_inPass (elev : ℕ → Option ℚ) (a : ℕ) :
    ∀ ts : List ℕ, scanLoop elev ts (some a) = (ts.find? (setStep elev)).map (fun l => (a, l)) := by
  intro ts
  induction ts with
  | nil => rfl
  | cons t ts ih =>
    cases h : elev t with
    | none =>
      have hs : setStep elev t = false := by simp [setStep, h]
      rw [scanLoop, h, List.find?_cons_of_neg _ (by simp [hs]), ih]
    | some e =>
      by_cases he : e ≤ 0
      · have hs : setStep elev t = true := by simp [setStep, h, he]
        rw [scanLoop, h, List.find?_cons_of_pos _ hs]
        simp [he]
      · have hs : setStep elev t = false := by simp [setStep, h, he]
        rw [scanLoop, h, List.find?_cons_of_neg _ (by simp [hs])]
        simp [he, ih]

/-- Helper: the scan loop started outside a pass equals the claim-side
edge-detection rule `specScan`. -/
theorem scanLoop_eq_specScan (elev : ℕ → Option ℚ) :
    ∀ ts : List ℕ, scanLoop elev ts none = specScan elev ts := by
  intro ts
  induction ts with
  | nil => rfl
  | cons t ts ih =>
    cases h : elev t with
    | none =>
      have hr : riseStep elev t = false := by simp [riseStep, h]
      rw [scanLoop, h, specScan, List.dropWhile_cons]
      simp only [hr, Bool.not_false, if_true]
      rw [ih, specScan]
    | some e =>
      by_cases hpos : 0 < e
      · have hr : riseStep elev t = true := by simp [riseStep, h, hpos]
        rw [scanLoop, h, specScan, List.dropWhile_cons]
        simp only [hr, Bool.not_true, if_false]
        simp [hpos, scanLoop_inPass]
      · have hr : riseStep elev t = false := by simp [riseStep, h, hpos]
        rw [scanLoop, h, specScan, List.dropWhile_cons]
        simp only [hr, Bool.not_false, if_true]
        simp [hpos, ih]
        rw [specScan]

/-- C6: for every propagated elevation profile and start instant, the local
propagation fallback equals the claimed edge-detection rule over the 6-hour,
10-second grid: the pass begins at the first grid step whose elevation is
defined and above the horizon (every earlier step at or below it, or without
a propagated position), ends at the first subsequent step back at or below
the horizon, and when no such rise/set pair exists within the horizon the
fallback reports no pass instead of guessing. -/
theorem C6_scan_edge_detection (elev : ℕ → Option ℚ) (startMs : ℕ) :
    computeNextPassScan elev startMs = (specScan elev (passGrid startMs)).map passOfPair := by
  rw [computeNextPassScan, scanLoop_eq_specScan]

/-- Helper: the integer-cast rounding identity for `Math.round`. -/
theorem jsRound_intCast (c : ℤ) : jsRound (c : ℚ) = c := by
  rw [jsRound, Int.floor_int_add]
  norm_num

/-- Helper: a successful scan's rise and set instants lie on the 10-second
grid, rise strictly before set, with the set index within the 6-hour bound. -/
theorem specScan_pair_shape (elev : ℕ → Option ℚ) (startMs a l : ℕ)
    (h : specScan elev (passGrid startMs) = some (a, l)) :
    ∃ ka kl : ℕ, ka < kl ∧ kl ≤ 2160 ∧
      a = startMs + 10000 * ka ∧ l = startMs + 10000 * kl := by
  rw [specScan] at h
  cases hdw : (passGrid startMs).dropWhile (fun t => !riseStep elev t) with
  | nil => rw [hdw] at h; exact Option.noConfusion h
  | cons a' rest =>
    rw [hdw] at h
    have h2 : Option.map (fun l => (a', l)) (rest.find? (setStep elev)) = some (a, l) := h
    cases hf : rest.find? (setStep elev) with
    | none => rw [hf] at h2; exact Option.noConfusion h2
    | some l' =>
      rw [hf] at h2
      injection h2 with h'
      rw [Prod.mk.injEq] at h'
      obtain ⟨rfl, rfl⟩ := h'
      have hsuf : List.IsSuffix (a' :: rest) (passGrid startMs) := by
        rw [← hdw]
        exact List.dropWhile_suffix _
      have hlmem : l' ∈ rest := List.mem_of_find?_eq_some hf
      have hpw : (passGrid startMs).Pairwise (· < ·) := by
        rw [passGrid]
        exact (List.pairwise_lt_range 2161).map _ (fun x y hxy => by omega)
      have hal : a' < l' :=
        (List.pairwise_cons.1 (hpw.sublist hsuf.sublist)).1 l' hlmem
      have hamem : a' ∈ passGrid startMs :=
        hsuf.sublist.subset (List.mem_cons_self a' rest)
      have hlmem' : l' ∈ passGrid startMs :=
        hsuf.sublist.subset (List.mem_cons_of_mem a' hlmem)
      rw [passGrid, List.mem_map] at hamem hlmem'
      obtain ⟨ka, hka, haeq⟩ := hamem
      obtain ⟨kl, hkl, hleq⟩ := hlmem'
      rw [List.mem_range] at hka hkl
      refine ⟨ka, kl, ?_, by omega, haeq.symm, hleq.symm⟩
      omega

/-- C7: for the alternate (rise/peak/set timestamp) adapter and for the local
propagation fallback alike, the reported rise time is the rise instant
truncated to whole epoch seconds and the duration equals
round((setEpochMs - riseEpochMs)/1000) floored at 0, hence never negative —
also when set precedes rise in the raw data.  For the fallback, the rise and
set instants are the actual pair found by the scan, the one `specScan`
characterizes as the first above-horizon step and the first subsequent
at-or-below-horizon step. -/
theorem C7_numeric_contract :
    (∀ aosMs losMs : ℤ,
      (satAdapterPass aosMs losMs).risetime = ⌊(aosMs : ℚ) / 1000⌋ ∧
      (satAdapterPass aosMs losMs).duration =
        max 0 (jsRound (((losMs - aosMs : ℤ) : ℚ) / 1000)) ∧
      0 ≤ (satAdapterPass aosMs losMs).duration) ∧
    (∀ (elev : ℕ → Option ℚ) (startMs : ℕ) (a l : ℕ),
      specScan elev (passGrid startMs) = some (a, l) →
      computeNextPassScan elev startMs =
        some { risetime := ((a / 1000 : ℕ) : ℤ)
               duration := max 0 (jsRound (((l : ℚ) - (a : ℚ)) / 1000)) } ∧
      0 ≤ max (0 : ℤ) (jsRound (((l : ℚ) - (a : ℚ)) / 1000))) := by
  constructor
  · intro aosMs losMs
    exact ⟨rfl, rfl, le_max_left 0 _⟩
  · intro elev startMs a l hp
    rw [computeNextPassScan, scanLoop_eq_specScan, hp]
    exact ⟨rfl, le_max_left 0 _⟩

set_option maxRecDepth 100000 in
/-- Helper: a concrete scan evaluation — with `exElev` the loop rises at the
first grid step (epoch 0 ms) and sets at the second (epoch 10000 ms), giving
rise time 0 s and duration 10 s. -/
theorem exElev_pass_eval : computeNextPassScan exElev 0 = some ⟨0, 10⟩ := by
  have hs : scanLoop exElev (passGrid 0) none = some (0, 10000) := by decide
  rw [computeNextPassScan, hs]
  have hp : passOfPair (0, 10000) = ISSPass.mk 0 10 := by
    rw [passOfPair]
    have hd : max (0 : ℤ) (jsRound ((((10000 : ℕ) : ℚ) - ((0 : ℕ) : ℚ)) / 1000)) = 10 := by
      norm_num [jsRound]
    rw [ISSPass.mk.injEq]
    exact ⟨by norm_num, hd⟩
  rw [Option.map_some', hp]

set_option maxRecDepth 100000 in
/-- Witness for C7: the contract evaluated for the alternate adapter at
rise 1500 ms / set 4500 ms, and for the fallback at the concrete profile
`exElev`, whose scan rises at epoch 0 ms and sets at epoch 10000 ms. -/
theorem C7_witness :
    ((satAdapterPass 1500 4500).risetime = ⌊(1500 : ℚ) / 1000⌋ ∧
     (satAdapterPass 1500 4500).duration =
       max 0 (jsRound (((4500 - 1500 : ℤ) : ℚ) / 1000)) ∧
     0 ≤ (satAdapterPass 1500 4500).duration) ∧
    (computeNextPassScan exElev 0 =
      some { risetime := (((0 : ℕ) / 1000 : ℕ) : ℤ)
             duration := max 0 (jsRound ((((10000 : ℕ) : ℚ) - ((0 : ℕ) : ℚ)) / 1000)) } ∧
     0 ≤ max (0 : ℤ) (jsRound ((((10000 : ℕ) : ℚ) - ((0 : ℕ) : ℚ)) / 1000))) :=
  ⟨C7_numeric_contract.1 1500 4500,
   C7_numeric_contract.2 exElev 0 0 10000 (by decide)⟩

/-- C9: every successful prediction of the local propagation fallback has a
nonnegative duration divisible by 10 seconds (rise and set both lie on the
10-second scan grid) and a rise time, in whole seconds, within the scanned
window from the start instant to 6 hours after it. -/
theorem C9_scan_result_shape (elev : ℕ → Option ℚ) (startMs : ℕ) (p : ISSPass)
    (h : computeNextPassScan elev startMs = some p) :
    0 ≤ p.duration ∧ (10 : ℤ) ∣ p.duration ∧
    ((startMs / 1000 : ℕ) : ℤ) ≤ p.risetime ∧
    p.risetime ≤ ((startMs / 1000 : ℕ) : ℤ) + 21600 := by
  rw [computeNextPassScan, scanLoop_eq_specScan] at h
  obtain ⟨⟨a, l⟩, hpair, rfl⟩ := Option.map_eq_some'.1 h
  obtain ⟨ka, kl, hkk, hkl, rfl, rfl⟩ := specScan_pair_shape elev startMs a l hpair
  refine ⟨le_max_left 0 _, ?_, ?_, ?_⟩
  · have hq : ((((startMs + 10000 * kl : ℕ) : ℚ)) - (((startMs + 10000 * ka : ℕ) : ℚ))) / 1000 =
        ((10 * (kl : ℤ) - 10 * (ka : ℤ) : ℤ) : ℚ) := by
      push_cast
      ring
    have hdur : (passOfPair (startMs + 10000 * ka, startMs + 10000 * kl)).duration =
        max 0 (10 * (kl : ℤ) - 10 * (ka : ℤ)) := by
      show max 0 (jsRound _) = _
      rw [hq, jsRound_intCast]
    have hpos : (0 : ℤ) ≤ 10 * (kl : ℤ) - 10 * (ka : ℤ) := by
      have hlt : (ka : ℤ) < (kl : ℤ) := by exact_mod_cast hkk
      omega
    rw [hdur, max_eq_right hpos]
    exact ⟨(kl : ℤ) - (ka : ℤ), by ring⟩
  · show ((startMs / 1000 : ℕ) : ℤ) ≤ (((startMs + 10000 * ka) / 1000 : ℕ) : ℤ)
    exact_mod_cast Nat.div_le_div_right (Nat.le_add_right startMs (10000 * ka))
  · show (((startMs + 10000 * ka) / 1000 : ℕ) : ℤ) ≤ ((startMs / 1000 : ℕ) : ℤ) + 21600
    have h1 : startMs + 10000 * ka ≤ startMs + 21600 * 1000 := by omega
    have h2 : (startMs + 10000 * ka) / 1000 ≤ (startMs + 21600 * 1000) / 1000 :=
      Nat.div_le_div_right h1
    rw [Nat.add_mul_div_right startMs 21600 (by norm_num)] at h2
    exact_mod_cast h2

/-- Witness for C9: the shape facts evaluated at the concrete profile
`exElev` from epoch 0, whose scan yields rise 0 s and duration 10 s. -/
theorem C9_witness :
    0 ≤ (ISSPass.mk 0 10).duration ∧ (10 : ℤ) ∣ (ISSPass.mk 0 10).duration ∧
    (((0 : ℕ) / 1000 : ℕ) : ℤ) ≤ (ISSPass.mk 0 10).risetime ∧
    (ISSPass.mk 0 10).risetime ≤ (((0 : ℕ) / 1000 : ℕ) : ℤ) + 21600 :=
  C9_scan_result_shape exElev 0 ⟨0, 10⟩ exElev_pass_eval
